import Mathlib

/-!
Shallow embedding of the MySQL dump scheduler (database.py, security.py,
dump.py). The filesystem is modelled as a list of file entries; each
operation of the source that touches the filesystem is translated to a pure
function that returns the files it deletes or the new file list. Machine
floats of the source (the 0.8 reduction threshold, size averages) are
modelled as exact rationals. Times of day are minutes after midnight.
-/

namespace MySQLDump

/-- Content of a backup file, as far as the integrity validator inspects it:
whether the inspected prefix decodes as UTF-8, the raw text lines on the
UTF-8 path, and the first line as decoded by the latin-1 fallback
(latin-1 decoding of arbitrary bytes never fails). -/
structure FileContent where
  utf8Ok : Bool
  lines : List String
  latin1FirstLine : String
deriving DecidableEq

/-- One file of the dump directory: directory, file name, modification
time and byte size, plus the content abstraction above. -/
structure FileEntry where
  dir : String
  name : String
  mtime : Nat
  size : Nat
  content : FileContent
deriving DecidableEq

/-- Decides whether the first character list starts the second. -/
def charsStart (pre : List Char) : List Char → Bool :=
  fun l =>
    match pre, l with
    | [], _ => true
    | _ :: _, [] => false
    | a :: as, b :: bs => a == b && charsStart as bs

/-- Decides whether the first character list ends the second. -/
def charsEnd (suf l : List Char) : Bool :=
  charsStart suf.reverse l.reverse

/-- File-name test of the glob pattern database_*.sql used by
get_backup_files and _perform_cleanup in database.py: the name starts with
the database name followed by an underscore, ends in .sql, and is long
enough that the two literal parts do not overlap. -/
def globMatch (database name : String) : Bool :=
  charsStart (database.toList ++ ['_']) name.toList &&
    charsEnd ('.' :: ['s', 'q', 'l']) name.toList &&
    database.length + 5 ≤ name.length

/-- A file counts as a backup of the database when it lies in the dump
directory and its name matches the glob pattern. -/
def backupFileMatch (dumpDir database : String) (f : FileEntry) : Bool :=
  f.dir == dumpDir && globMatch database f.name

/-- Ordering used by the source when sorting with reverse=True on the
modification time: newer (larger mtime) first. -/
def mtimeDescRel (a b : FileEntry) : Prop := b.mtime ≤ a.mtime

instance : DecidableRel mtimeDescRel := fun a b => Nat.decLe b.mtime a.mtime

instance : IsTotal FileEntry mtimeDescRel :=
  ⟨fun a b => Nat.le_total b.mtime a.mtime⟩

instance : IsTrans FileEntry mtimeDescRel :=
  ⟨fun _ _ _ hab hbc => Nat.le_trans hbc hab⟩

/-- Ordering used by cleanup in dump.py, which sorts ascending on the
modification time: older first. -/
def mtimeAscRel (a b : FileEntry) : Prop := a.mtime ≤ b.mtime

instance : DecidableRel mtimeAscRel := fun a b => Nat.decLe a.mtime b.mtime

instance : IsTotal FileEntry mtimeAscRel :=
  ⟨fun a b => Nat.le_total a.mtime b.mtime⟩

instance : IsTrans FileEntry mtimeAscRel :=
  ⟨fun _ _ _ hab hbc => Nat.le_trans hab hbc⟩

/-- BackupSecurityValidator.get_backup_files: all files of the dump
directory matching database_*.sql, sorted by modification time, most
recent first. -/
def get_backup_files (fs : List FileEntry) (dumpDir database : String) :
    List FileEntry :=
  List.insertionSort mtimeDescRel (fs.filter (backupFileMatch dumpDir database))

/-- Lookup of a path in the modelled filesystem (os.path.exists plus
os.path.getsize and open). -/
def lookupFile (fs : List FileEntry) (dumpDir name : String) : Option FileEntry :=
  fs.find? (fun f => f.dir == dumpDir && f.name == name)

/-- Markers of a MySQL dump searched for by validate_backup_integrity. -/
def sql_indicators : List String :=
  ["MYSQLDUMP", "CREATE TABLE", "INSERT INTO", "DROP TABLE", "USE ", "SET "]

/-- Decides whether the first list occurs contiguously inside the second,
the substring test of the Python in operator on strings. -/
def containsSublist (needle : List Char) : List Char → Bool
  | [] => charsStart needle []
  | c :: cs => charsStart needle (c :: cs) || containsSublist needle cs

/-- Whitespace stripping of both ends of a line, the Python strip method
restricted to ASCII whitespace. -/
def pyStrip (l : List Char) : List Char :=
  ((l.dropWhile Char.isWhitespace).reverse.dropWhile Char.isWhitespace).reverse

/-- Upper-casing of a line, the Python upper method on ASCII letters. -/
def pyUpper (l : List Char) : List Char := l.map Char.toUpper

/-- Test of the joined, upper-cased first lines against the markers,
as in validate_backup_integrity. -/
def hasSqlContent (strippedLines : List (List Char)) : Bool :=
  let content := pyUpper (List.intercalate ['\x0a'] strippedLines)
  sql_indicators.any (fun ind => containsSublist ind.toList content)

/-- BackupSecurityValidator.validate_backup_integrity: existence check,
minimum-size check, then the content check: on the UTF-8 path the first
ten stripped lines must contain one of the markers; when the prefix does
not decode as UTF-8, only the first latin-1 line is read and the check
passes iff that line is non-blank after stripping. -/
def validate_backup_integrity (minSizeThreshold : Nat) (fs : List FileEntry)
    (dumpDir name : String) : Bool :=
  match lookupFile fs dumpDir name with
  | none => false
  | some f =>
    if f.size < minSizeThreshold then false
    else if f.content.utf8Ok then
      hasSqlContent ((f.content.lines.take 10).map (fun l => pyStrip l.toList))
    else
      !(pyStrip f.content.latin1FirstLine.toList |>.isEmpty)

/-- Diagnostic message of check_size_consistency, abstracted to its case. -/
inductive SizeMsg where
  | missing
  | firstBackupOk (size : Nat)
  | firstTooSmall (size : Nat)
  | suspiciousReduction (newSize : Nat)
  | okVariation (newSize : Nat)
  | belowHistoricalMin (newSize minPrev : Nat)
deriving DecidableEq

/-- Prior backups considered by check_size_consistency: all matching files
except the candidate itself, most recent first. -/
def previous_backups (fs : List FileEntry) (dumpDir database newName : String) :
    List FileEntry :=
  (get_backup_files fs dumpDir database).filter
    (fun f => !(f.dir == dumpDir && f.name == newName))

/-- BackupSecurityValidator.check_size_consistency: with no prior backup
only the minimum-size check applies; otherwise the candidate is compared
with the average of the up to five most recent prior sizes (unsafe when
below average times the retained fraction) and then with their minimum
(unsafe when strictly below it). -/
def check_size_consistency (minSizeThreshold : Nat)
    (sizeReductionThreshold : ℚ) (fs : List FileEntry)
    (dumpDir database newName : String) : Bool × SizeMsg :=
  match lookupFile fs dumpDir newName with
  | none => (false, SizeMsg.missing)
  | some nb =>
    let newSize := nb.size
    let previous := previous_backups fs dumpDir database newName
    if previous.isEmpty then
      if minSizeThreshold ≤ newSize then (true, SizeMsg.firstBackupOk newSize)
      else (false, SizeMsg.firstTooSmall newSize)
    else
      let previousSizes : List Nat := (previous.take 5).map (fun f => f.size)
      let avgSize : ℚ := (previousSizes.sum : ℚ) / (previousSizes.length : ℚ)
      let minSize := previousSizes.min?.getD 0
      if (newSize : ℚ) < avgSize * sizeReductionThreshold then
        (false, SizeMsg.suspiciousReduction newSize)
      else if minSize ≤ newSize then (true, SizeMsg.okVariation newSize)
      else (false, SizeMsg.belowHistoricalMin newSize minSize)

/-- Verdict message of validate_before_cleanup, abstracted to its case. -/
inductive VerdictMsg where
  | integrityFailed
  | sizeCheckFailed (m : SizeMsg)
  | validated (m : SizeMsg)
deriving DecidableEq

/-- BackupSecurityValidator.validate_before_cleanup: integrity check, then
size-consistency check, short-circuiting on the first failure. -/
def validate_before_cleanup (minSizeThreshold : Nat)
    (sizeReductionThreshold : ℚ) (fs : List FileEntry)
    (dumpDir database newName : String) : Bool × VerdictMsg :=
  if !(validate_backup_integrity minSizeThreshold fs dumpDir newName) then
    (false, VerdictMsg.integrityFailed)
  else
    match check_size_consistency minSizeThreshold sizeReductionThreshold
        fs dumpDir database newName with
    | (false, m) => (false, VerdictMsg.sizeCheckFailed m)
    | (true, m) => (true, VerdictMsg.validated m)

/-- BackupSecurityValidator.set_security_thresholds: minimum size in bytes
from KB, and the retained fraction 1 - percent/100 stored as
size_reduction_threshold. -/
def set_security_thresholds (minSizeKb sizeReductionPercent : Nat) : Nat × ℚ :=
  (minSizeKb * 1024, 1 - (sizeReductionPercent : ℚ) / 100)

/-- Default minimum size of BackupSecurityValidator (1024 bytes). -/
def default_min_size_threshold : Nat := 1024

/-- Default size_reduction_threshold of BackupSecurityValidator: the source
literal 0.8, modelled as the exact rational 4/5. -/
def default_size_reduction_threshold : ℚ := 8 / 10

/-- MySQLDumpScheduler._perform_cleanup of database.py, returning the list
of deleted files: the matching files sorted most recent first, with
everything beyond the first maxCopies entries deleted; nothing is deleted
when at most maxCopies files match. -/
def perform_cleanup (fs : List FileEntry) (dumpDir database : String)
    (maxCopies : Nat) : List FileEntry :=
  let files := List.insertionSort mtimeDescRel
    (fs.filter (backupFileMatch dumpDir database))
  if maxCopies < files.length then files.drop maxCopies else []

/-- File test of cleanup in dump.py: any file of the dump directory whose
name ends in .sql, with no database-name restriction. -/
def sqlSuffixMatch (dumpDir : String) (f : FileEntry) : Bool :=
  f.dir == dumpDir && charsEnd ['.', 's', 'q', 'l'] f.name.toList

/-- MySQLDumpScheduler.cleanup of dump.py, returning the list of deleted
files: all .sql files of the directory sorted oldest first, with the first
length - maxCopies entries deleted when more than maxCopies are present. -/
def dump_cleanup (fs : List FileEntry) (dumpDir : String) (maxCopies : Nat) :
    List FileEntry :=
  let files := fs.filter (sqlSuffixMatch dumpDir)
  if files.length ≤ maxCopies then []
  else
    let sorted := List.insertionSort mtimeAscRel files
    sorted.take (sorted.length - maxCopies)

/-- Task attached to a job of the schedule module: the backup task
(scheduled_task) or the per-minute mode check
(check_night_mode_transition). -/
inductive TaskTag where
  | backup
  | modeCheck
deriving DecidableEq

/-- One armed job of the schedule module: interval in minutes and task. -/
structure Job where
  intervalMinutes : Nat
  task : TaskTag
deriving DecidableEq

/-- Kind of an outgoing Telegram message. -/
inductive NotifKind where
  | welcome
  | helpInfo
  | nightStart
  | nightEnd
  | startup
  | shutdown
  | criticalAlert
  | dumpError
deriving DecidableEq

/-- State of MySQLDumpScheduler of database.py, restricted to the fields
the modelled operations read or write, plus the job list of the global
schedule module. The field stop_notification_sent models the presence of
the attribute _stop_notification_sent. Times of day are minutes after
midnight. -/
structure SchedulerState where
  database : String
  dump_dir : String
  running : Bool
  max_copies : Nat
  security_enabled : Bool
  telegram_enabled : Bool
  telegram_subscribers : List String
  auto_subscribe : Bool
  stop_notification_sent : Bool
  night_mode : Bool
  normal_interval : Nat
  night_interval : Nat
  night_start_time : Nat
  night_end_time : Nat
  min_size_threshold : Nat
  size_reduction_threshold : ℚ
  jobs : List Job
deriving DecidableEq

/-- MySQLDumpScheduler.save_subscribers: the subscriber collection written
in full to the persisted file. -/
def save_subscribers (s : SchedulerState) : List String :=
  s.telegram_subscribers

/-- MySQLDumpScheduler.send_telegram_alert: nothing is sent when the
feature is disabled or no subscriber exists; otherwise one message of the
given kind is attempted per subscriber (the attempts are returned),
subscribers whose delivery fails are removed and the set saved, and the
result is true iff at least one delivery succeeded. The delivery oracle
stands for the outcome of the outbound HTTP call per chat. -/
def send_telegram_alert (delivery : String → Bool) (s : SchedulerState)
    (kind : NotifKind) :
    SchedulerState × Bool × List (String × NotifKind) :=
  if !s.telegram_enabled then (s, false, [])
  else if s.telegram_subscribers.isEmpty then (s, false, [])
  else
    let attempts := s.telegram_subscribers.map (fun c => (c, kind))
    let remaining := s.telegram_subscribers.filter (fun c => delivery c)
    let succeeded := s.telegram_subscribers.any (fun c => delivery c)
    ({ s with telegram_subscribers := remaining }, succeeded, attempts)

/-- MySQLDumpScheduler.is_night_time: when the window wraps past midnight
(start strictly after end) membership is now at or after start, or before
end; otherwise it is start at or before now, strictly before end. -/
def is_night_time (s : SchedulerState) (now : Nat) : Bool :=
  if s.night_end_time < s.night_start_time then
    decide (s.night_start_time ≤ now) || decide (now < s.night_end_time)
  else
    decide (s.night_start_time ≤ now) && decide (now < s.night_end_time)

/-- MySQLDumpScheduler.enter_night_mode: sets the night flag, clears every
job of the schedule module and arms only the backup task at the night
interval, then broadcasts the night-start notice. -/
def enter_night_mode (delivery : String → Bool) (s : SchedulerState) :
    SchedulerState × List (String × NotifKind) :=
  let s1 := { s with night_mode := true,
                     jobs := [Job.mk s.night_interval TaskTag.backup] }
  let r := send_telegram_alert delivery s1 NotifKind.nightStart
  (r.1, r.2.2)

/-- MySQLDumpScheduler.exit_night_mode: clears the night flag, clears every
job of the schedule module and arms only the backup task at the normal
interval, then broadcasts the night-end notice. -/
def exit_night_mode (delivery : String → Bool) (s : SchedulerState) :
    SchedulerState × List (String × NotifKind) :=
  let s1 := { s with night_mode := false,
                     jobs := [Job.mk s.normal_interval TaskTag.backup] }
  let r := send_telegram_alert delivery s1 NotifKind.nightEnd
  (r.1, r.2.2)

/-- MySQLDumpScheduler.check_night_mode_transition at the given time of
day. -/
def check_night_mode_transition (delivery : String → Bool) (now : Nat)
    (s : SchedulerState) : SchedulerState × List (String × NotifKind) :=
  let isNight := is_night_time s now
  if isNight && !s.night_mode then enter_night_mode delivery s
  else if !isNight && s.night_mode then exit_night_mode delivery s
  else (s, [])

/-- Outcome of the dump-producing part of create_dump: connection probe
failed, mysqldump executable not found, mysqldump exited non-zero, an
exception was raised during production, or the dump completed. -/
inductive DumpStep where
  | connFail
  | toolMissing
  | procFail
  | procRaise
  | completed
deriving DecidableEq

/-- Result of create_dump: return value, resulting filesystem, whether the
candidate file was deleted, resulting scheduler state and the attempted
Telegram messages. -/
structure DumpResult where
  ok : Bool
  fs : List FileEntry
  candidateDeleted : Bool
  state : SchedulerState
  sent : List (String × NotifKind)
deriving DecidableEq

/-- MySQLDumpScheduler.create_dump of database.py. The candidate file is
created once the subprocess runs; on non-zero exit or on an exception the
candidate is removed again (filesystem unchanged, candidateDeleted true).
When the dump completes and security validation is enabled,
validate_before_cleanup decides the return value: on an unsafe verdict the
critical alert is broadcast and the call returns false with the candidate
retained on disk; on a safe verdict, and always when validation is
disabled, the call returns true. -/
def create_dump (delivery : String → Bool) (s : SchedulerState)
    (fs : List FileEntry) (step : DumpStep) (newFile : FileEntry) :
    DumpResult :=
  match step with
  | DumpStep.connFail => ⟨false, fs, false, s, []⟩
  | DumpStep.toolMissing => ⟨false, fs, false, s, []⟩
  | DumpStep.procFail => ⟨false, fs, true, s, []⟩
  | DumpStep.procRaise =>
    let r := send_telegram_alert delivery s NotifKind.dumpError
    ⟨false, fs, true, r.1, r.2.2⟩
  | DumpStep.completed =>
    let fs1 := newFile :: fs
    if s.security_enabled then
      let v := validate_before_cleanup s.min_size_threshold
        s.size_reduction_threshold fs1 s.dump_dir s.database newFile.name
      if v.1 then ⟨true, fs1, false, s, []⟩
      else
        let r := send_telegram_alert delivery s NotifKind.criticalAlert
        ⟨false, fs1, false, r.1, r.2.2⟩
    else ⟨true, fs1, false, s, []⟩

/-- MySQLDumpScheduler.cleanup of database.py, returning the deleted
files: with validation disabled it falls through to _perform_cleanup;
otherwise it lists the backup files and, whenever any exists, proceeds
with _perform_cleanup regardless of any validation verdict. -/
def cleanup (s : SchedulerState) (fs : List FileEntry) : List FileEntry :=
  if !s.security_enabled then
    perform_cleanup fs s.dump_dir s.database s.max_copies
  else
    let backupFiles := get_backup_files fs s.dump_dir s.database
    if backupFiles.isEmpty then []
    else perform_cleanup fs s.dump_dir s.database s.max_copies

/-- Result of one scheduled cycle: resulting state, filesystem, the old
backups deleted by retention cleanup, and the attempted messages. -/
structure CycleResult where
  state : SchedulerState
  fs : List FileEntry
  deletedOld : List FileEntry
  sent : List (String × NotifKind)
deriving DecidableEq

/-- MySQLDumpScheduler.scheduled_task of database.py: the mode-transition
check runs first; then, when the connection probe succeeds, create_dump
runs and cleanup (or _perform_cleanup when validation is disabled) is
invoked unconditionally, with the return value of create_dump ignored. -/
def scheduled_task (delivery : String → Bool) (now : Nat)
    (s : SchedulerState) (fs : List FileEntry) (connOk : Bool)
    (step : DumpStep) (newFile : FileEntry) : CycleResult :=
  let t := check_night_mode_transition delivery now s
  let s1 := t.1
  if connOk then
    let d := create_dump delivery s1 fs step newFile
    let deleted :=
      if s1.security_enabled then cleanup d.state d.fs
      else perform_cleanup d.fs s1.dump_dir s1.database s1.max_copies
    let fsFinal := d.fs.filter (fun f => !(deleted.contains f))
    ⟨d.state, fsFinal, deleted, t.2 ++ d.sent⟩
  else
    ⟨s1, fs, [], t.2⟩

/-- Result of MySQLDumpScheduler.start: resulting state, whether the
inbound listener thread was started, whether the startup-notice thread was
spawned, and the attempted messages. -/
structure StartResult where
  state : SchedulerState
  listenerStarted : Bool
  startupNoticeSpawned : Bool
  sent : List (String × NotifKind)
deriving DecidableEq

/-- MySQLDumpScheduler.start: sets running, clears the schedule, arms the
backup job (entering night mode first when the current time lies in the
night window), appends the per-minute mode check, starts the listener only
when the Telegram feature is enabled together with auto subscription, and
spawns the startup notice only when the feature is enabled. -/
def start (delivery : String → Bool) (now : Nat) (s : SchedulerState) :
    StartResult :=
  let s1 := { s with running := true, jobs := [] }
  let r2 :=
    if is_night_time s1 now then enter_night_mode delivery s1
    else ({ s1 with jobs := [Job.mk s1.normal_interval TaskTag.backup] },
          ([] : List (String × NotifKind)))
  let s3 := { r2.1 with jobs := r2.1.jobs ++ [Job.mk 1 TaskTag.modeCheck] }
  let listener := s3.telegram_enabled && s3.auto_subscribe
  let r4 :=
    if s3.telegram_enabled then
      let a := send_telegram_alert delivery s3 NotifKind.startup
      (a.1, a.2.2)
    else (s3, ([] : List (String × NotifKind)))
  ⟨r4.1, listener, s3.telegram_enabled, r2.2 ++ r4.2⟩

/-- MySQLDumpScheduler.stop: disables the Telegram feature, clears running
and the schedule; only when the feature was enabled on entry and the
shutdown notice was never sent before, the notice flag is set, the feature
is re-enabled for one broadcast of the shutdown notice, and disabled
again. The boolean of the result records whether the shutdown broadcast
was attempted. -/
def stop (delivery : String → Bool) (s : SchedulerState) :
    SchedulerState × Bool × List (String × NotifKind) :=
  let old := s.telegram_enabled
  let s1 := { s with telegram_enabled := false, running := false,
                     jobs := [] }
  if old && !s1.stop_notification_sent then
    let s2 := { s1 with stop_notification_sent := true,
                        telegram_enabled := true }
    let a := send_telegram_alert delivery s2 NotifKind.shutdown
    ({ a.1 with telegram_enabled := false }, true, a.2.2)
  else (s1, false, [])

/-- Command texts answered with the help message by the listener. -/
def help_commands : List String := ["/start", "/help", "help", "info"]

/-- Body of listen_for_new_users for one inbound message: an unseen chat
identifier is added to the subscriber set and the set is saved, with a
welcome message sent; a known identifier leaves the set untouched; a
command text additionally gets the help reply. -/
def handle_incoming_message (s : SchedulerState) (chatId text : String) :
    SchedulerState × List (String × NotifKind) :=
  let r1 :=
    if s.telegram_subscribers.contains chatId then
      (s, ([] : List (String × NotifKind)))
    else
      ({ s with telegram_subscribers := chatId :: s.telegram_subscribers },
       [(chatId, NotifKind.welcome)])
  if (help_commands.map String.toList).contains (text.toList.map Char.toLower) then
    (r1.1, r1.2 ++ [(chatId, NotifKind.helpInfo)])
  else (r1.1, r1.2)

/-- Sizes of the up to five most recent prior backups, the history that
check_size_consistency compares against. -/
def historySizes (fs : List FileEntry) (dumpDir database newName : String) :
    List Nat :=
  ((previous_backups fs dumpDir database newName).take 5).map (fun f => f.size)

/-! Concrete fixtures used by counterexamples, failing-input evaluations
and witnesses. -/

/-- Content typical of a successful dump: UTF-8 with a recognizable
marker in the first lines. -/
def okContent : FileContent :=
  ⟨true, ["-- MySQL dump 10.13  Distrib 8.0", "CREATE TABLE t1 (id INT)"], ""⟩

/-- An older good backup of 100000 bytes. -/
def old1 : FileEntry := ⟨"d", "db_20240101_000000.sql", 10, 100000, okContent⟩

/-- A second good backup of 100000 bytes, more recent than old1. -/
def old2 : FileEntry := ⟨"d", "db_20240102_000000.sql", 20, 100000, okContent⟩

/-- A fresh candidate of only 2000 bytes, far below the 100000-byte
history. -/
def tinyNew : FileEntry := ⟨"d", "db_20240103_000000.sql", 30, 2000, okContent⟩

/-- A single prior backup of 10000 bytes. -/
def prev10k : FileEntry := ⟨"d", "db_20240101_000000.sql", 10, 10000, okContent⟩

/-- A candidate of 9000 bytes: above 80 percent of the 10000-byte average,
yet below the historical minimum. -/
def cand9k : FileEntry := ⟨"d", "db_20240102_000000.sql", 20, 9000, okContent⟩

/-- A stray .sql file in the dump directory that does not match the
database naming pattern. -/
def strayFile : FileEntry := ⟨"d", "other.sql", 1, 5000, okContent⟩

/-- A file whose prefix does not decode as UTF-8, with a non-blank first
latin-1 line that contains no dump marker requirement. -/
def nonUtf8File : FileEntry :=
  ⟨"d", "db_20240104_000000.sql", 40, 4096, ⟨false, [], "랜덤 바이트"⟩⟩

/-- A scheduler configured like the source defaults: security validation
on, one retained copy for compact examples, Telegram off, normal interval
5 minutes, night window 20:30 to 05:00 at 60 minutes. -/
def baseState : SchedulerState :=
  { database := "db"
    dump_dir := "d"
    running := false
    max_copies := 1
    security_enabled := true
    telegram_enabled := false
    telegram_subscribers := []
    auto_subscribe := true
    stop_notification_sent := false
    night_mode := false
    normal_interval := 5
    night_interval := 60
    night_start_time := 1230
    night_end_time := 300
    min_size_threshold := 1024
    size_reduction_threshold := 8 / 10
    jobs := [] }

/-! Helper lemmas. -/

/-- The state returned by send_telegram_alert differs from the input state
at most in the subscriber set. -/
theorem send_telegram_alert_shape (d : String → Bool) (s : SchedulerState)
    (k : NotifKind) :
    ∃ subs, (send_telegram_alert d s k).1 =
      { s with telegram_subscribers := subs } := by
  unfold send_telegram_alert
  split
  · exact ⟨s.telegram_subscribers, rfl⟩
  · split
    · exact ⟨s.telegram_subscribers, rfl⟩
    · exact ⟨_, rfl⟩

/-- With the Telegram feature disabled, send_telegram_alert changes
nothing and attempts nothing. -/
theorem send_telegram_alert_disabled (d : String → Bool) (s : SchedulerState)
    (k : NotifKind) (h : s.telegram_enabled = false) :
    send_telegram_alert d s k = (s, false, []) := by
  unfold send_telegram_alert
  rw [h]
  rfl

/-- In a pairwise-related list, every element of the prefix relates to
every element of the corresponding suffix. -/
theorem pairwise_take_drop {α : Type} {r : α → α → Prop} {l : List α}
    (h : l.Pairwise r) (n : Nat) :
    ∀ a ∈ l.take n, ∀ b ∈ l.drop n, r a b := by
  have h2 : (l.take n ++ l.drop n).Pairwise r := by
    rw [List.take_append_drop]
    exact h
  exact (List.pairwise_append.mp h2).2.2

/-- Every field of the state except the subscriber set survives
send_telegram_alert unchanged. -/
theorem send_telegram_alert_fields (d : String → Bool) (s : SchedulerState)
    (k : NotifKind) :
    (send_telegram_alert d s k).1.telegram_enabled = s.telegram_enabled ∧
    (send_telegram_alert d s k).1.running = s.running ∧
    (send_telegram_alert d s k).1.jobs = s.jobs ∧
    (send_telegram_alert d s k).1.stop_notification_sent =
      s.stop_notification_sent ∧
    (send_telegram_alert d s k).1.night_mode = s.night_mode ∧
    (send_telegram_alert d s k).1.auto_subscribe = s.auto_subscribe := by
  obtain ⟨subs, h⟩ := send_telegram_alert_shape d s k
  rw [h]
  exact ⟨rfl, rfl, rfl, rfl, rfl, rfl⟩

/-- After any stop call the Telegram feature is disabled, the scheduler is
not running and no job is armed. -/
theorem stop_fst_fields (d : String → Bool) (s : SchedulerState) :
    (stop d s).1.telegram_enabled = false ∧ (stop d s).1.running = false ∧
    (stop d s).1.jobs = [] := by
  unfold stop
  dsimp only
  split
  · have hf := send_telegram_alert_fields d
      { s with running := false, jobs := [],
               stop_notification_sent := true, telegram_enabled := true }
      NotifKind.shutdown
    exact ⟨rfl, hf.2.1, hf.2.2.1⟩
  · exact ⟨rfl, rfl, rfl⟩

/-- A stop call on a state with the feature already disabled does nothing
but clear the flags: no broadcast, no attempts. -/
theorem stop_of_disabled (d : String → Bool) (s : SchedulerState)
    (h : s.telegram_enabled = false) :
    stop d s = ({ s with telegram_enabled := false, running := false,
                         jobs := [] }, false, []) := by
  unfold stop
  rw [h]
  rfl

/-- C6 (idempotent stop): calling stop twice in succession attempts the
shutdown broadcast at most once in total, leaves the running flag false
after each call, and the second call attempts no message at all. -/
theorem c6_stop_idempotent (d1 d2 : String → Bool) (s : SchedulerState) :
    (stop d1 s).2.1.toNat + (stop d2 (stop d1 s).1).2.1.toNat ≤ 1 ∧
    (stop d1 s).1.running = false ∧
    (stop d2 (stop d1 s).1).1.running = false ∧
    (stop d2 (stop d1 s).1).2.2 = [] := by
  have h1 := stop_fst_fields d1 s
  have h2 := stop_of_disabled d2 (stop d1 s).1 h1.1
  refine ⟨?_, h1.2.1, ?_, ?_⟩
  · rw [h2]
    cases (stop d1 s).2.1 <;> simp
  · rw [h2]
  · rw [h2]

/-- C5 (off-peak window wrap): for a wrapping window (start strictly after
end) membership is now at or after start, or strictly before end; for a
non-wrapping window it is start at or before now, strictly before end; on
the concrete 20:30 to 05:00 window, 23:00 and 02:00 are inside, 12:00 and
06:00 are outside. -/
theorem c5_night_window_membership (s : SchedulerState) (now : Nat) :
    (s.night_end_time < s.night_start_time →
      is_night_time s now =
        (decide (s.night_start_time ≤ now) || decide (now < s.night_end_time))) ∧
    (s.night_start_time ≤ s.night_end_time →
      is_night_time s now =
        (decide (s.night_start_time ≤ now) && decide (now < s.night_end_time))) ∧
    is_night_time baseState 1380 = true ∧
    is_night_time baseState 120 = true ∧
    is_night_time baseState 720 = false ∧
    is_night_time baseState 360 = false := by
  refine ⟨fun h => ?_, fun h => ?_, by decide, by decide, by decide, by decide⟩
  · unfold is_night_time
    rw [if_pos h]
  · unfold is_night_time
    rw [if_neg (Nat.not_lt.mpr h)]

/-- Witness for C5 at the wrapping window of the source configuration and
the time 23:00. -/
theorem c5_night_window_membership_witness :
    is_night_time baseState 1380 =
      (decide (baseState.night_start_time ≤ 1380) ||
        decide (1380 < baseState.night_end_time)) :=
  (c5_night_window_membership baseState 1380).1 (by decide)

/-- With the feature disabled, enter_night_mode only flips the night flag
and rearms the backup job at the night interval. -/
theorem enter_night_mode_disabled (d : String → Bool) (s : SchedulerState)
    (h : s.telegram_enabled = false) :
    enter_night_mode d s =
      ({ s with night_mode := true,
                jobs := [Job.mk s.night_interval TaskTag.backup] }, []) := by
  unfold enter_night_mode
  dsimp only
  rw [send_telegram_alert_disabled d
    { s with night_mode := true,
             jobs := [Job.mk s.night_interval TaskTag.backup] }
    NotifKind.nightStart h]

/-- Starting a scheduler whose Telegram feature is disabled runs it
without listener, without startup notice and without any message. -/
theorem start_of_disabled (d : String → Bool) (now : Nat)
    (s : SchedulerState) (h : s.telegram_enabled = false) :
    (start d now s).state.telegram_enabled = false ∧
    (start d now s).state.running = true ∧
    (start d now s).listenerStarted = false ∧
    (start d now s).startupNoticeSpawned = false ∧
    (start d now s).sent = [] := by
  unfold start
  dsimp only
  split
  · rw [enter_night_mode_disabled d { s with running := true, jobs := [] } h]
    simp [h]
  · simp [h]

/-- C9 (stop disables notifications for good): after a stop, a subsequent
start leaves the Telegram feature off, runs the scheduler, starts no
inbound listener, spawns no startup notice and sends nothing. -/
theorem c9_stop_then_start (d1 d2 : String → Bool) (now : Nat)
    (s : SchedulerState) :
    (start d2 now (stop d1 s).1).state.telegram_enabled = false ∧
    (start d2 now (stop d1 s).1).state.running = true ∧
    (start d2 now (stop d1 s).1).listenerStarted = false ∧
    (start d2 now (stop d1 s).1).startupNoticeSpawned = false ∧
    (start d2 now (stop d1 s).1).sent = [] :=
  start_of_disabled d2 now _ (stop_fst_fields d1 s).1

/-- C4 (mode-check cadence, failing-input evaluation): starting at 12:00
arms the per-minute mode check, but the first transition (the 21:00 tick
entering night mode) clears it: afterwards only the 60-minute backup job
is armed, so the next boundary crossing cannot be detected within one
minute tick. In general, both transition functions leave exactly the one
backup job armed, never the per-minute check. -/
theorem c4_minute_check_lost_after_transition :
    (Job.mk 1 TaskTag.modeCheck) ∈
      (start (fun _ => true) 720 baseState).state.jobs ∧
    (check_night_mode_transition (fun _ => true) 1260
        (start (fun _ => true) 720 baseState).state).1.night_mode = true ∧
    (check_night_mode_transition (fun _ => true) 1260
        (start (fun _ => true) 720 baseState).state).1.jobs =
      [Job.mk 60 TaskTag.backup] ∧
    (Job.mk 1 TaskTag.modeCheck) ∉
      (check_night_mode_transition (fun _ => true) 1260
        (start (fun _ => true) 720 baseState).state).1.jobs ∧
    (∀ (d : String → Bool) (s : SchedulerState),
      (enter_night_mode d s).1.jobs = [Job.mk s.night_interval TaskTag.backup]) ∧
    (∀ (d : String → Bool) (s : SchedulerState),
      (exit_night_mode d s).1.jobs = [Job.mk s.normal_interval TaskTag.backup]) := by
  refine ⟨by decide, by decide, by decide, by decide, fun d s => ?_, fun d s => ?_⟩
  · exact (send_telegram_alert_fields d
      { s with night_mode := true,
               jobs := [Job.mk s.night_interval TaskTag.backup] }
      NotifKind.nightStart).2.2.1
  · exact (send_telegram_alert_fields d
      { s with night_mode := false,
               jobs := [Job.mk s.normal_interval TaskTag.backup] }
      NotifKind.nightEnd).2.2.1

/-- The state component of handle_incoming_message: unchanged for a known
identifier, extended by the new identifier otherwise. -/
theorem handle_incoming_message_fst (s : SchedulerState) (c t : String) :
    (handle_incoming_message s c t).1 =
      if s.telegram_subscribers.contains c then s
      else { s with telegram_subscribers := c :: s.telegram_subscribers } := by
  unfold handle_incoming_message
  dsimp only
  split <;> split <;> rfl

/-- C8 (subscriber add-once): with a duplicate-free persisted set,
processing a contact keeps the persisted set duplicate-free, and a second
contact from the same identifier leaves the persisted set unchanged. -/
theorem c8_subscriber_add_once (s : SchedulerState) (chatId t1 t2 : String)
    (h : (save_subscribers s).Nodup) :
    (save_subscribers (handle_incoming_message s chatId t1).1).Nodup ∧
    (save_subscribers (handle_incoming_message
        (handle_incoming_message s chatId t1).1 chatId t2).1).Nodup ∧
    save_subscribers (handle_incoming_message
        (handle_incoming_message s chatId t1).1 chatId t2).1 =
      save_subscribers (handle_incoming_message s chatId t1).1 := by
  rw [handle_incoming_message_fst, handle_incoming_message_fst]
  by_cases hc : s.telegram_subscribers.contains chatId
  · simp only [if_pos hc]
    exact ⟨h, h, trivial⟩
  · simp only [if_neg hc]
    have hmem : chatId ∉ s.telegram_subscribers := by
      intro hm
      exact hc (List.elem_eq_true_of_mem hm)
    have hnd : (chatId :: s.telegram_subscribers).Nodup :=
      List.nodup_cons.mpr ⟨hmem, h⟩
    have hc2 : ({ s with telegram_subscribers :=
        chatId :: s.telegram_subscribers } :
        SchedulerState).telegram_subscribers.contains chatId = true := by
      simp [List.contains_cons]
    simp only [if_pos hc2]
    exact ⟨hnd, hnd, trivial⟩

/-- Witness for C8: a fresh identifier contacting twice a scheduler with
one existing subscriber. -/
theorem c8_subscriber_add_once_witness :
    (save_subscribers (handle_incoming_message
        { baseState with telegram_subscribers := ["111"] } "222" "hi").1).Nodup ∧
    (save_subscribers (handle_incoming_message
        (handle_incoming_message
          { baseState with telegram_subscribers := ["111"] } "222" "hi").1
        "222" "hi").1).Nodup ∧
    save_subscribers (handle_incoming_message
        (handle_incoming_message
          { baseState with telegram_subscribers := ["111"] } "222" "hi").1
        "222" "hi").1 =
      save_subscribers (handle_incoming_message
        { baseState with telegram_subscribers := ["111"] } "222" "hi").1 :=
  c8_subscriber_add_once
    { baseState with telegram_subscribers := ["111"] } "222" "hi" "hi"
    (by decide)

/-- C10 (latin-1 fallback needs no marker): when the prefix does not
decode as UTF-8, integrity validation passes for any existing file of
sufficient size whose first latin-1 line is non-blank; no dump marker is
consulted on this path. -/
theorem c10_latin1_fallback_no_marker (minT : Nat) (fs : List FileEntry)
    (dir nm : String) (f : FileEntry)
    (hf : lookupFile fs dir nm = some f)
    (hUtf : f.content.utf8Ok = false)
    (hSize : minT ≤ f.size)
    (hLine : pyStrip f.content.latin1FirstLine.toList ≠ []) :
    validate_backup_integrity minT fs dir nm = true := by
  unfold validate_backup_integrity
  rw [hf]
  dsimp only
  rw [if_neg (Nat.not_lt.mpr hSize), hUtf]
  have hLine2 : pyStrip f.content.latin1FirstLine.data ≠ [] := hLine
  simp [hLine2]

/-- Witness for C10: a 4096-byte file with a non-UTF-8 prefix, an empty
marker-line list and a non-blank first latin-1 line validates. -/
theorem c10_latin1_fallback_no_marker_witness :
    validate_backup_integrity 1024 [nonUtf8File] "d"
      "db_20240104_000000.sql" = true :=
  c10_latin1_fallback_no_marker 1024 [nonUtf8File] "d"
    "db_20240104_000000.sql" nonUtf8File (by decide) (by decide) (by decide)
    (by decide)

/-- Counterexample to C2 as stated: a candidate of 9000 bytes against a
single prior backup of 10000 bytes passes the existence and content
checks and satisfies 9000 at least 10000 times (1 - 20 percent), so the
claim predicts a safe verdict; check_size_consistency nevertheless
returns unsafe, through its historical-minimum comparison. -/
theorem c2_counterexample_min_check :
    validate_backup_integrity 1024 [prev10k, cand9k] "d"
      "db_20240102_000000.sql" = true ∧
    (check_size_consistency 1024 (8 / 10) [prev10k, cand9k] "d" "db"
      "db_20240102_000000.sql").1 = false ∧
    ¬((9000 : ℚ) < 10000 * (1 - 2 / 10)) := by
  refine ⟨by decide, ?_, by norm_num⟩
  have h1 : lookupFile [prev10k, cand9k] "d" "db_20240102_000000.sql" =
      some cand9k := by decide
  have h2 : previous_backups [prev10k, cand9k] "d" "db"
      "db_20240102_000000.sql" = [prev10k] := by decide
  unfold check_size_consistency
  rw [h1]
  dsimp only
  rw [h2]
  norm_num [prev10k, cand9k, okContent, List.min?]

/-- C2 amended: with at least one prior backup, the size-consistency
check returns unsafe iff the candidate size is below the average of the
up to five most recent prior sizes times the retained fraction, or
strictly below the minimum of those sizes. -/
theorem c2_amended_reduction_or_min (minT : Nat) (srt : ℚ)
    (fs : List FileEntry) (dir db nm : String) (nb : FileEntry)
    (hnb : lookupFile fs dir nm = some nb)
    (hprev : previous_backups fs dir db nm ≠ []) :
    ((check_size_consistency minT srt fs dir db nm).1 = false ↔
      ((nb.size : ℚ) < ((historySizes fs dir db nm).sum : ℚ) /
          ((historySizes fs dir db nm).length : ℚ) * srt ∨
        nb.size < (historySizes fs dir db nm).min?.getD 0)) := by
  unfold check_size_consistency
  rw [hnb]
  dsimp only
  rw [if_neg (by simp [List.isEmpty_iff, hprev])]
  simp only [historySizes]
  split
  next h1 => exact ⟨fun _ => Or.inl h1, fun _ => rfl⟩
  next h1 =>
    split
    next h2 =>
      refine ⟨fun hcon => Bool.noConfusion hcon, fun hor => ?_⟩
      rcases hor with h | h
      · exact absurd h h1
      · exact absurd h (not_lt.mpr h2)
    next h2 => exact ⟨fun _ => Or.inr (lt_of_not_le h2), fun _ => rfl⟩

/-- Witness for the amended C2 at the 10000-byte history with a 9000-byte
candidate. -/
theorem c2_amended_reduction_or_min_witness :
    ((check_size_consistency 1024 (8 / 10) [prev10k, cand9k] "d" "db"
      "db_20240102_000000.sql").1 = false ↔
      ((cand9k.size : ℚ) <
          ((historySizes [prev10k, cand9k] "d" "db"
            "db_20240102_000000.sql").sum : ℚ) /
          ((historySizes [prev10k, cand9k] "d" "db"
            "db_20240102_000000.sql").length : ℚ) * (8 / 10) ∨
        cand9k.size < (historySizes [prev10k, cand9k] "d" "db"
          "db_20240102_000000.sql").min?.getD 0)) :=
  c2_amended_reduction_or_min 1024 (8 / 10) [prev10k, cand9k] "d" "db"
    "db_20240102_000000.sql" cand9k (by decide) (by decide)

/-- The 2000-byte candidate against the 100000-byte history fails the
size-consistency check with the suspicious-reduction diagnostic. -/
theorem tinyNew_size_check :
    check_size_consistency 1024 (8 / 10) (tinyNew :: [old1, old2]) "d" "db"
      "db_20240103_000000.sql" = (false, SizeMsg.suspiciousReduction 2000) := by
  have h1 : lookupFile (tinyNew :: [old1, old2]) "d"
      "db_20240103_000000.sql" = some tinyNew := by decide
  have h2 : previous_backups (tinyNew :: [old1, old2]) "d" "db"
      "db_20240103_000000.sql" = [old2, old1] := by decide
  unfold check_size_consistency
  rw [h1]
  dsimp only
  rw [h2]
  norm_num [old1, old2, tinyNew, okContent, List.min?]

/-- The 2000-byte candidate fails the full validation with an unsafe
verdict. -/
theorem tinyNew_validation_fails :
    (validate_before_cleanup 1024 (8 / 10) (tinyNew :: [old1, old2]) "d" "db"
      "db_20240103_000000.sql").1 = false := by
  have hint : validate_backup_integrity 1024 (tinyNew :: [old1, old2]) "d"
      "db_20240103_000000.sql" = true := by decide
  unfold validate_before_cleanup
  rw [hint, tinyNew_size_check]
  rfl

/-- C7 (validation failure retains the candidate): when the dump
completed and validation returns unsafe, create_dump returns failure with
the candidate still on disk; and whenever create_dump deletes the
candidate, the run was a dump-production failure (non-zero exit or an
exception during production), never a validation failure. -/
theorem c7_validation_failure_retains_candidate (d : String → Bool)
    (s : SchedulerState) (fs : List FileEntry) (newFile : FileEntry) :
    (s.security_enabled = true →
      (validate_before_cleanup s.min_size_threshold s.size_reduction_threshold
        (newFile :: fs) s.dump_dir s.database newFile.name).1 = false →
      (create_dump d s fs DumpStep.completed newFile).ok = false ∧
      (create_dump d s fs DumpStep.completed newFile).candidateDeleted = false ∧
      newFile ∈ (create_dump d s fs DumpStep.completed newFile).fs) ∧
    (∀ step : DumpStep,
      (create_dump d s fs step newFile).candidateDeleted = true →
      step = DumpStep.procFail ∨ step = DumpStep.procRaise) := by
  constructor
  · intro hsec hv
    unfold create_dump
    dsimp only
    rw [if_pos hsec, if_neg (by rw [hv]; exact Bool.false_ne_true)]
    exact ⟨rfl, rfl, List.mem_cons_self _ _⟩
  · intro step hdel
    cases step
    case connFail => exact Bool.noConfusion hdel
    case toolMissing => exact Bool.noConfusion hdel
    case procFail => exact Or.inl rfl
    case procRaise => exact Or.inr rfl
    case completed =>
      exfalso
      unfold create_dump at hdel
      dsimp only at hdel
      split at hdel
      · split at hdel
        · exact Bool.false_ne_true hdel
        · exact Bool.false_ne_true hdel
      · exact Bool.false_ne_true hdel

/-- Witness for C7: the unsafe 2000-byte candidate is retained and the
call reports failure. -/
theorem c7_validation_failure_retains_candidate_witness :
    (create_dump (fun _ => true) baseState [old1, old2] DumpStep.completed
      tinyNew).ok = false ∧
    (create_dump (fun _ => true) baseState [old1, old2] DumpStep.completed
      tinyNew).candidateDeleted = false ∧
    tinyNew ∈ (create_dump (fun _ => true) baseState [old1, old2]
      DumpStep.completed tinyNew).fs :=
  (c7_validation_failure_retains_candidate (fun _ => true) baseState
    [old1, old2] tinyNew).1 rfl tinyNew_validation_fails

/-- C1 (failing-input evaluation): a cycle with a reachable database, a
completed dump of 2000 bytes against two 100000-byte prior backups and a
one-copy retention cap. Validation returns unsafe, yet the cycle deletes
the two good old backups and keeps only the suspect candidate, because
scheduled_task ignores the result of create_dump and cleanup rechecks
nothing. -/
theorem c1_cleanup_runs_despite_unsafe_verdict :
    (validate_before_cleanup 1024 (8 / 10) (tinyNew :: [old1, old2]) "d" "db"
      "db_20240103_000000.sql").1 = false ∧
    (scheduled_task (fun _ => true) 720 baseState [old1, old2] true
      DumpStep.completed tinyNew).deletedOld = [old2, old1] ∧
    (scheduled_task (fun _ => true) 720 baseState [old1, old2] true
      DumpStep.completed tinyNew).fs = [tinyNew] := by
  have htr : check_night_mode_transition (fun _ => true) 720 baseState =
      (baseState, []) := by
    unfold check_night_mode_transition
    rw [show is_night_time baseState 720 = false from by decide]
    rfl
  have hv : (validate_before_cleanup baseState.min_size_threshold
      baseState.size_reduction_threshold (tinyNew :: [old1, old2])
      baseState.dump_dir baseState.database tinyNew.name).1 = false :=
    tinyNew_validation_fails
  have hcd : create_dump (fun _ => true) baseState [old1, old2]
      DumpStep.completed tinyNew =
      ⟨false, tinyNew :: [old1, old2], false, baseState, []⟩ := by
    unfold create_dump
    dsimp only
    rw [if_pos (show baseState.security_enabled = true from rfl),
      if_neg (by rw [hv]; exact Bool.false_ne_true),
      send_telegram_alert_disabled (fun _ => true) baseState
        NotifKind.criticalAlert rfl]
  refine ⟨tinyNew_validation_fails, ?_, ?_⟩ <;>
    · unfold scheduled_task
      rw [htr]
      dsimp only
      rw [hcd]
      decide

/-- Counterexample to C3 as stated: with two artifacts matching the
naming pattern of database db, a cap of two and a stray non-matching
other.sql file present, the claim says nothing is deleted and that only
pattern-matching files are ever considered or deleted; cleanup of dump.py
(one of the two cited implementations) nevertheless deletes the stray
file, because it counts and prunes every .sql file of the directory. -/
theorem c3_counterexample_stray_sql :
    ([strayFile, old1, old2].filter (backupFileMatch "d" "db")).length = 2 ∧
    dump_cleanup [strayFile, old1, old2] "d" 2 = [strayFile] ∧
    backupFileMatch "d" "db" strayFile = false := by decide

/-- C3 amended: _perform_cleanup of database.py deletes nothing when at
most k pattern-matching artifacts exist, deletes exactly the excess over
k otherwise, touches only pattern-matching files and only ones no newer
than every survivor; cleanup of dump.py obeys the same cap-and-oldest
rule but over all files of the directory ending in .sql, regardless of
the naming pattern. -/
theorem c3_amended_retention_cap (fs : List FileEntry) (dir db : String)
    (k : Nat) :
    ((fs.filter (backupFileMatch dir db)).length ≤ k →
      perform_cleanup fs dir db k = []) ∧
    (k < (fs.filter (backupFileMatch dir db)).length →
      (perform_cleanup fs dir db k).length =
        (fs.filter (backupFileMatch dir db)).length - k) ∧
    (∀ f ∈ perform_cleanup fs dir db k, backupFileMatch dir db f = true) ∧
    (∀ f ∈ perform_cleanup fs dir db k,
      ∀ g ∈ (List.insertionSort mtimeDescRel
          (fs.filter (backupFileMatch dir db))).take k,
        f.mtime ≤ g.mtime) ∧
    ((fs.filter (sqlSuffixMatch dir)).length ≤ k →
      dump_cleanup fs dir k = []) ∧
    (k < (fs.filter (sqlSuffixMatch dir)).length →
      (dump_cleanup fs dir k).length =
        (fs.filter (sqlSuffixMatch dir)).length - k) ∧
    (∀ f ∈ dump_cleanup fs dir k, sqlSuffixMatch dir f = true) ∧
    (∀ f ∈ dump_cleanup fs dir k,
      ∀ g ∈ (List.insertionSort mtimeAscRel
          (fs.filter (sqlSuffixMatch dir))).drop
          ((fs.filter (sqlSuffixMatch dir)).length - k),
        f.mtime ≤ g.mtime) := by
  refine ⟨?_, ?_, ?_, ?_, ?_, ?_, ?_, ?_⟩
  · intro hle
    unfold perform_cleanup
    dsimp only
    rw [if_neg (by rw [List.length_insertionSort]; omega)]
  · intro hlt
    unfold perform_cleanup
    dsimp only
    rw [if_pos (by rw [List.length_insertionSort]; omega)]
    rw [List.length_drop, List.length_insertionSort]
  · intro f hf
    unfold perform_cleanup at hf
    dsimp only at hf
    split at hf
    · have h1 : f ∈ List.insertionSort mtimeDescRel
          (fs.filter (backupFileMatch dir db)) := List.mem_of_mem_drop hf
      exact (List.mem_filter.mp ((List.mem_insertionSort _).mp h1)).2
    · cases hf
  · intro f hf g hg
    unfold perform_cleanup at hf
    dsimp only at hf
    split at hf
    · have hp := List.sorted_insertionSort mtimeDescRel
        (fs.filter (backupFileMatch dir db))
      exact pairwise_take_drop hp k g hg f hf
    · cases hf
  · intro hle
    unfold dump_cleanup
    dsimp only
    rw [if_pos hle]
  · intro hlt
    unfold dump_cleanup
    dsimp only
    rw [if_neg (by omega)]
    rw [List.length_take, List.length_insertionSort]
    exact Nat.min_eq_left (Nat.sub_le _ _)
  · intro f hf
    unfold dump_cleanup at hf
    dsimp only at hf
    split at hf
    · cases hf
    · have h1 : f ∈ List.insertionSort mtimeAscRel
          (fs.filter (sqlSuffixMatch dir)) := List.mem_of_mem_take hf
      exact (List.mem_filter.mp ((List.mem_insertionSort _).mp h1)).2
  · intro f hf g hg
    unfold dump_cleanup at hf
    dsimp only at hf
    split at hf
    · cases hf
    · have hp := List.sorted_insertionSort mtimeAscRel
        (fs.filter (sqlSuffixMatch dir))
      rw [List.length_insertionSort] at hf
      exact pairwise_take_drop hp
        ((fs.filter (sqlSuffixMatch dir)).length - k) f hf g hg

/-- Witness for the amended C3: with the cap two, the database.py variant
deletes nothing among its two matching artifacts, while the dump.py
variant deletes one of the three .sql files. -/
theorem c3_amended_retention_cap_witness :
    perform_cleanup [strayFile, old1, old2] "d" "db" 2 = [] ∧
    (dump_cleanup [strayFile, old1, old2] "d" 2).length =
      ([strayFile, old1, old2].filter (sqlSuffixMatch "d")).length - 2 :=
  ⟨(c3_amended_retention_cap [strayFile, old1, old2] "d" "db" 2).1
      (by decide),
   (c3_amended_retention_cap [strayFile, old1, old2] "d" "db" 2).2.2.2.2.2.1
      (by decide)⟩

end MySQLDump
